import Mathlib

/-!
Shallow embedding of the risk-and-typology scoring engine
(`compute_risk_and_typology` in `app.py`).

Transactions are flat mappings of field names to values; the engine reads
five keys (`remitter_country`, `beneficiary_country`, `amount_usd`,
`purpose`, `account_type`), each either absent or holding a string or a
number, so a transaction is embedded as a record of `Option Value` fields
(keys the engine never reads cannot affect it).  Amounts are embedded as
`Rat`; Python operations that can raise (`float` on an unparseable string,
`.strip()`/`.lower()` on a non-string) are embedded in `Except String`,
with `.error` standing for a raised exception.
-/

/-- A value a transaction field can hold: text or a number. -/
inductive Value where
  | str (s : String)
  | num (q : Rat)
deriving DecidableEq

/-- The transaction fields read by the engine; every field optional. -/
structure Tx where
  remitter_country : Option Value := none
  beneficiary_country : Option Value := none
  amount_usd : Option Value := none
  purpose : Option Value := none
  account_type : Option Value := none
deriving DecidableEq

/-- The result record returned by the engine (the dict literal of `app.py`). -/
structure ScoreResult where
  score : Nat
  level : String
  emoji : String
  typologies : List String
  explanation : String
deriving DecidableEq

def HIGH_RISK_COUNTRIES : List String :=
  ["Afghanistan", "North Korea", "Iran", "Syria", "Russia"]

def MEDIUM_RISK_COUNTRIES : List String :=
  ["Pakistan", "Yemen", "Iraq", "Libya"]

def HIGH_RISK_PURPOSES : List String :=
  ["Hawala transfer", "Cryptocurrency exchange", "High-value cash",
   "Suspicious payment", "Trade-based money laundering"]

/-- Python's `str.strip()`: drop whitespace from both ends. -/
def pyStrip (s : String) : String :=
  ⟨((s.toList.dropWhile Char.isWhitespace).reverse.dropWhile
      Char.isWhitespace).reverse⟩

/-- Python's `str.lower()`: lowercase every character. -/
def pyLower (s : String) : String :=
  ⟨s.toList.map Char.toLower⟩

/-- `listContains need hay`: Python `need in hay` on character lists
(substring containment). -/
def listContains (need : List Char) : List Char → Bool
  | [] => need.isEmpty
  | c :: t => need.isPrefixOf (c :: t) || listContains need t

/-- Python's substring test `need in hay` on strings. -/
def strContains (hay need : String) : Bool :=
  listContains need.toList hay.toList

/-- Country-risk points (`app.py` lines 39-44): high-risk match +50,
else medium-risk match +20, else 0. -/
def countryPoints (sender receiver : String) : Nat :=
  if sender ∈ HIGH_RISK_COUNTRIES ∨ receiver ∈ HIGH_RISK_COUNTRIES then 50
  else if sender ∈ MEDIUM_RISK_COUNTRIES ∨ receiver ∈ MEDIUM_RISK_COUNTRIES then 20
  else 0

/-- The reason strings appended by the country-risk rule. -/
def countryReasons (sender receiver : String) : List String :=
  if sender ∈ HIGH_RISK_COUNTRIES ∨ receiver ∈ HIGH_RISK_COUNTRIES then
    ["High-risk / sanctioned country: " ++ sender ++ " -> " ++ receiver]
  else if sender ∈ MEDIUM_RISK_COUNTRIES ∨ receiver ∈ MEDIUM_RISK_COUNTRIES then
    ["Medium-risk country: " ++ sender ++ " -> " ++ receiver]
  else []

/-- Amount-risk points (`app.py` lines 47-52): thresholds selected by the
lowercased account type, `"individual"` vs anything else. -/
def amountPoints (acct_type : String) (amount : Rat) : Nat :=
  if acct_type = "individual" then
    if amount > 10000 then 20
    else if amount > 5000 then 10
    else 0
  else
    if amount > 50000 then 20
    else if amount > 20000 then 10
    else 0

/-- The reason strings appended by the amount-risk rule. -/
def amountReasons (acct_type : String) (amount : Rat) : List String :=
  if acct_type = "individual" then
    if amount > 10000 then ["Large amount (>10,000 USD) for individual"]
    else if amount > 5000 then ["Medium amount (5,000–10,000 USD) for individual"]
    else []
  else
    if amount > 50000 then ["Large amount (>50,000 USD) for company"]
    else if amount > 20000 then ["Medium amount (20,000–50,000 USD) for company"]
    else []

/-- The (high, medium) threshold pair the amount rule applies for a given
lowercased account type. -/
def thresholdPair (acct_type : String) : Rat × Rat :=
  if acct_type = "individual" then (10000, 5000) else (50000, 20000)

/-- Purpose-risk points (`app.py` lines 55-57): +20 when any configured
high-risk purpose phrase, lowercased, is a substring of the lowercased
purpose text. -/
def purposePoints (purpose : String) : Nat :=
  if HIGH_RISK_PURPOSES.any (fun hrp => strContains purpose (pyLower hrp)) then 20
  else 0

/-- The reason strings appended by the purpose-risk rule. -/
def purposeReasons (purpose : String) : List String :=
  if HIGH_RISK_PURPOSES.any (fun hrp => strContains purpose (pyLower hrp)) then
    ["High-risk purpose detected: " ++ purpose]
  else []

/-- Cross-border points (`app.py` lines 60-62). -/
def crossBorderPoints (sender receiver : String) : Nat :=
  if sender ≠ receiver then 10 else 0

/-- The reason string appended by the cross-border rule. -/
def crossBorderReasons (sender receiver : String) : List String :=
  if sender ≠ receiver then ["Cross-border transaction"] else []

/-- Tier classification of the capped score (`app.py` lines 66-71),
returning the (level, emoji) pair. -/
def riskLevel (score : Nat) : String × String :=
  if score < 30 then ("Low", "🟢")
  else if score < 60 then ("Medium", "🟠")
  else ("High", "🔴")

/-- Typology derivation (`app.py` lines 74-84): each predicate appends its
label; if none fired, the sentinel label is appended. -/
def typologyList (sender receiver : String) (amount : Rat)
    (purpose acct_type : String) : List String :=
  let t1 := if amount > 10000 ∧ sender ∈ HIGH_RISK_COUNTRIES then
    ["Layering / Cross-border structuring"] else []
  let t2 := if amount > 5000 ∧ sender ≠ receiver ∧ acct_type = "individual" then
    ["Cross-border retail remittance / funnel account"] else []
  let t3 := if strContains purpose "crypto" then ["Crypto transaction"] else []
  let t4 := if strContains purpose "trade" then ["Trade-based money laundering"] else []
  let ts := t1 ++ t2 ++ t3 ++ t4
  if ts = [] then ["No clear typology detected"] else ts

/-- The pure core of `compute_risk_and_typology` (`app.py` lines 38-87),
applied to the already-coerced field values. -/
def scoreCore (sender receiver : String) (amount : Rat)
    (purpose acct_type : String) : ScoreResult :=
  let risk_points := countryPoints sender receiver + amountPoints acct_type amount
      + purposePoints purpose + crossBorderPoints sender receiver
  let reasons := countryReasons sender receiver ++ amountReasons acct_type amount
      ++ purposeReasons purpose ++ crossBorderReasons sender receiver
  let score := min 100 risk_points
  let lv := riskLevel score
  let typologies := typologyList sender receiver amount purpose acct_type
  let explanation :=
    if reasons ≠ [] then String.intercalate "; " reasons
    else "No strong drivers detected by demo rules."
  ⟨score, lv.1, lv.2, typologies, explanation⟩

/-- `tx.get(key, default)` followed by a string method: absent yields the
default, a string value yields itself, a numeric value raises
(`AttributeError`, since floats have no `.strip()`/`.lower()`). -/
def getStr : Option Value → String → Except String String
  | none, dflt => .ok dflt
  | some (.str s), _ => .ok s
  | some (.num _), _ => .error "AttributeError"

/-- Python truthiness of a field value (`x or 0` picks 0 on falsy `x`). -/
def pyTruthy : Value → Bool
  | .str s => s ≠ ""
  | .num q => q ≠ 0

/-- Numeric value of a digit run (most significant first). -/
def digitsVal (ds : List Char) : Nat :=
  ds.foldl (fun a c => 10 * a + (c.toNat - 48)) 0

/-- Split a character list at the first character satisfying `p`; the second
component is `none` when no such character occurs. -/
def splitOnChar (p : Char → Bool) : List Char → List Char × Option (List Char)
  | [] => ([], none)
  | c :: rest =>
    if p c then ([], some rest)
    else
      let r := splitOnChar p rest
      (c :: r.1, r.2)

/-- Consume an optional leading sign; returns (negative?, rest). -/
def pySign : List Char → Bool × List Char
  | '-' :: rest => (true, rest)
  | '+' :: rest => (false, rest)
  | cs => (false, cs)

/-- Python's `float(s)` on a string: strips surrounding whitespace, then
parses `[sign] digits [. digits] [e [sign] digits]` (decimal literal
grammar; the special forms `inf`/`nan` and underscore separators are not
represented).  `none` models a raised `ValueError`. -/
def pyFloatOfString? (s : String) : Option Rat :=
  let cs0 := (pyStrip s).toList
  let sgn := pySign cs0
  let mex := splitOnChar (fun c => c = 'e' ∨ c = 'E') sgn.2
  let ifp := splitOnChar (fun c => c = '.') mex.1
  let ip := ifp.1
  let fp := (ifp.2).getD []
  if ip.all Char.isDigit ∧ fp.all Char.isDigit ∧ (ip ≠ [] ∨ fp ≠ []) then
    let m : Rat := (digitsVal ip : Rat) + (digitsVal fp : Rat) / (10 : Rat) ^ fp.length
    let withExp : Option Rat :=
      match mex.2 with
      | none => some m
      | some ecs =>
        let esgn := pySign ecs
        if esgn.2 ≠ [] ∧ (esgn.2).all Char.isDigit then
          let e := digitsVal esgn.2
          some (if esgn.1 then m / 10 ^ e else m * 10 ^ e)
        else none
    withExp.map (fun q => if sgn.1 then -q else q)
  else none

/-- `float(tx.get("amount_usd") or 0)` (`app.py` line 34): absent or falsy
yields 0; a truthy string must parse as a float, else `ValueError`. -/
def amountCoerce : Option Value → Except String Rat
  | none => .ok 0
  | some v =>
    if pyTruthy v then
      match v with
      | .num q => .ok q
      | .str s =>
        match pyFloatOfString? s with
        | some q => .ok q
        | none => .error "ValueError"
    else .ok 0

/-- `compute_risk_and_typology` (`app.py` lines 28-87): coerce the five
fields in source order, then run the pure scoring core. -/
def compute_risk_and_typology (tx : Tx) : Except String ScoreResult :=
  (getStr tx.remitter_country "").bind fun senderRaw =>
  (getStr tx.beneficiary_country "").bind fun receiverRaw =>
  (amountCoerce tx.amount_usd).bind fun amount =>
  (getStr tx.purpose "").bind fun purposeRaw =>
  (getStr tx.account_type "Individual").bind fun acctRaw =>
  .ok (scoreCore (pyStrip senderRaw) (pyStrip receiverRaw) amount
        (pyLower (pyStrip purposeRaw)) (pyLower acctRaw))

/-- A text field the engine calls a string method on: absent or a string. -/
def strField : Option Value → Bool
  | some (.num _) => false
  | _ => true

/-- An amount field the engine can coerce without raising: absent, numeric,
or a string that is empty (falsy) or parses as a float. -/
def amtField : Option Value → Bool
  | none => true
  | some (.num _) => true
  | some (.str s) => s = "" || (pyFloatOfString? s).isSome

/-- Transactions on which every field coercion succeeds. -/
def wellFormedTx (tx : Tx) : Bool :=
  strField tx.remitter_country && strField tx.beneficiary_country &&
  amtField tx.amount_usd && strField tx.purpose && strField tx.account_type

/-- Values of the result record, as the dict literal of `app.py` line 87
holds them; the `map` constructor exists so that the presence of a
sub-score mapping in the result is expressible. -/
inductive ResValue where
  | num (n : Nat)
  | str (s : String)
  | strList (ts : List String)
  | map (m : List (String × Int))
deriving DecidableEq

/-- The key-value pairs of the dict returned by the engine
(`app.py` line 87). -/
def resultDict (r : ScoreResult) : List (String × ResValue) :=
  [("score", .num r.score), ("level", .str r.level), ("emoji", .str r.emoji),
   ("typologies", .strList r.typologies), ("explanation", .str r.explanation)]

theorem getStr_ok_of_strField (o : Option Value) (d : String)
    (h : strField o = true) : ∃ s, getStr o d = Except.ok s := by
  match o with
  | none => exact ⟨d, rfl⟩
  | some (.str s) => exact ⟨s, rfl⟩
  | some (.num q) => simp [strField] at h

theorem amountCoerce_ok_of_amtField (o : Option Value)
    (h : amtField o = true) : ∃ q, amountCoerce o = Except.ok q := by
  match o with
  | none => exact ⟨0, rfl⟩
  | some (.num q) =>
    by_cases hq : q = 0
    · exact ⟨0, by simp [amountCoerce, pyTruthy, hq]⟩
    · exact ⟨q, by simp [amountCoerce, pyTruthy, hq]⟩
  | some (.str s) =>
    by_cases hs : s = ""
    · exact ⟨0, by simp [amountCoerce, pyTruthy, hs]⟩
    · have hp : (pyFloatOfString? s).isSome = true := by
        simpa [amtField, hs] using h
      obtain ⟨q, hq⟩ := Option.isSome_iff_exists.mp hp
      exact ⟨q, by simp [amountCoerce, pyTruthy, hs, hq]⟩

theorem scoreCore_typologies (sender receiver : String) (amount : Rat)
    (purpose acct_type : String) :
    (scoreCore sender receiver amount purpose acct_type).typologies =
      typologyList sender receiver amount purpose acct_type := rfl

/-- C1 (amended): the engine is total over well-formed transactions (text
fields absent or strings, amount absent, numeric, empty, or a parseable
float string), and the all-fields-absent transaction yields score 0, tier
Low, the sentinel typology, and the default explanation. -/
theorem c1_total_and_empty_default :
    (∀ tx : Tx, wellFormedTx tx = true →
       ∃ r, compute_risk_and_typology tx = Except.ok r) ∧
    compute_risk_and_typology {} =
      Except.ok ⟨0, "Low", "🟢", ["No clear typology detected"],
        "No strong drivers detected by demo rules."⟩ := by
  constructor
  · intro tx h
    simp only [wellFormedTx, Bool.and_eq_true] at h
    obtain ⟨⟨⟨⟨h1, h2⟩, h3⟩, h4⟩, h5⟩ := h
    obtain ⟨s1, e1⟩ := getStr_ok_of_strField tx.remitter_country "" h1
    obtain ⟨s2, e2⟩ := getStr_ok_of_strField tx.beneficiary_country "" h2
    obtain ⟨q3, e3⟩ := amountCoerce_ok_of_amtField tx.amount_usd h3
    obtain ⟨s4, e4⟩ := getStr_ok_of_strField tx.purpose "" h4
    obtain ⟨s5, e5⟩ := getStr_ok_of_strField tx.account_type "Individual" h5
    refine ⟨scoreCore (pyStrip s1) (pyStrip s2) q3 (pyLower (pyStrip s4))
      (pyLower s5), ?_⟩
    simp [compute_risk_and_typology, e1, e2, e3, e4, e5, Except.bind]
  · rfl

/-- C1 witness: a concrete well-formed transaction scores successfully. -/
theorem c1_witness :
    ∃ r, compute_risk_and_typology { amount_usd := some (.num 5) } =
      Except.ok r :=
  c1_total_and_empty_default.1 _ (by decide)

/-- C1 counterexample: a transaction whose amount field holds the
unparseable string "abc" makes the engine raise (`float("abc")` raises
`ValueError`), so the engine is not total over arbitrary values and no
coercion to 0 happens. -/
theorem c1_counterexample :
    compute_risk_and_typology { amount_usd := some (.str "abc") } =
      Except.error "ValueError" := rfl

/-- C2: the amount sub-score looks up the (high, medium) threshold pair by
account type — the `individual` entry is (10000, 5000) and every other
(unrecognized) account-type combination falls back to the default pair
(50000, 20000) — adding +20 with exactly one reason above the high
threshold, else +10 with exactly one reason above the medium threshold,
else 0 with no reason, with strictly-greater-than comparisons so that an
amount exactly equal to a threshold does not trigger it. -/
theorem c2_amount_threshold_lookup :
    (∀ (acct_type : String) (amount : Rat),
       amountPoints acct_type amount =
         (if amount > (thresholdPair acct_type).1 then 20
          else if amount > (thresholdPair acct_type).2 then 10 else 0)) ∧
    (∀ (acct_type : String) (amount : Rat),
       (amount > (thresholdPair acct_type).1 →
          amountPoints acct_type amount = 20 ∧
          (amountReasons acct_type amount).length = 1) ∧
       (¬amount > (thresholdPair acct_type).1 →
          amount > (thresholdPair acct_type).2 →
          amountPoints acct_type amount = 10 ∧
          (amountReasons acct_type amount).length = 1) ∧
       (¬amount > (thresholdPair acct_type).1 →
          ¬amount > (thresholdPair acct_type).2 →
          amountPoints acct_type amount = 0 ∧
          (amountReasons acct_type amount).length = 0)) ∧
    (∀ acct_type : String,
       amountPoints acct_type (thresholdPair acct_type).1 = 10 ∧
       amountPoints acct_type (thresholdPair acct_type).2 = 0) ∧
    thresholdPair "individual" = (10000, 5000) ∧
    (∀ acct_type : String, acct_type ≠ "individual" →
       thresholdPair acct_type = (50000, 20000)) := by
  refine ⟨?_, ?_, ?_, rfl, ?_⟩
  · intro t a
    by_cases h : t = "individual" <;> simp [amountPoints, thresholdPair, h]
  · intro t a
    by_cases ht : t = "individual"
    · subst ht
      refine ⟨fun g1 => ?_, fun g1 g2 => ?_, fun g1 g2 => ?_⟩
      · have h : a > 10000 := g1
        simp [amountPoints, amountReasons, h]
      · have h : ¬a > 10000 := g1
        have h' : a > 5000 := g2
        simp [amountPoints, amountReasons, h, h']
      · have h : ¬a > 10000 := g1
        have h' : ¬a > 5000 := g2
        simp [amountPoints, amountReasons, h, h']
    · refine ⟨fun g1 => ?_, fun g1 g2 => ?_, fun g1 g2 => ?_⟩
      · have h : a > 50000 := by simpa [thresholdPair, ht] using g1
        simp [amountPoints, amountReasons, ht, h]
      · have h : ¬a > 50000 := by simpa [thresholdPair, ht] using g1
        have h' : a > 20000 := by simpa [thresholdPair, ht] using g2
        simp [amountPoints, amountReasons, ht, h, h']
      · have h : ¬a > 50000 := by simpa [thresholdPair, ht] using g1
        have h' : ¬a > 20000 := by simpa [thresholdPair, ht] using g2
        simp [amountPoints, amountReasons, ht, h, h']
  · intro t
    by_cases h : t = "individual" <;>
      simp [amountPoints, thresholdPair, h] <;> norm_num
  · intro t h
    simp [thresholdPair, h]

/-- C2 witness: an unrecognized account type gets the default pair, a
boundary amount does not trigger its own threshold, and an amount above
the high threshold scores +20 with exactly one reason. -/
theorem c2_witness :
    thresholdPair "corp" = (50000, 20000) ∧
    amountPoints "individual" (thresholdPair "individual").1 = 10 ∧
    amountPoints "individual" 15000 = 20 ∧
    (amountReasons "individual" 15000).length = 1 := by
  refine ⟨c2_amount_threshold_lookup.2.2.2.2 "corp" (by decide),
    (c2_amount_threshold_lookup.2.2.1 "individual").1, ?_, ?_⟩ <;>
  · have h := (c2_amount_threshold_lookup.2.1 "individual" 15000).1 (by decide)
    simp [h.1, h.2]

/-- C3: the total score is the sum of the four sub-scores capped at 100,
hence between 0 and 100 (sub-scores are naturals, so never negative). -/
theorem c3_score_is_capped_sum :
    ∀ (sender receiver : String) (amount : Rat) (purpose acct_type : String),
      (scoreCore sender receiver amount purpose acct_type).score =
        min 100 (countryPoints sender receiver + amountPoints acct_type amount +
          purposePoints purpose + crossBorderPoints sender receiver) ∧
      (scoreCore sender receiver amount purpose acct_type).score ≤ 100 :=
  fun _ _ _ _ _ => ⟨rfl, Nat.min_le_left _ _⟩

/-- C4: the tier is a total function of the capped score with exact
boundaries: below 30 Low, from 30 below 60 Medium, from 60 High; in
particular 29 is Low, 30 is Medium, 59 is Medium, 60 is High. -/
theorem c4_tier_boundaries :
    (∀ (sender receiver : String) (amount : Rat) (purpose acct_type : String),
       (scoreCore sender receiver amount purpose acct_type).level =
         (riskLevel (scoreCore sender receiver amount purpose acct_type).score).1) ∧
    (∀ n : Nat, ((riskLevel n).1 = "Low" ↔ n < 30) ∧
       ((riskLevel n).1 = "Medium" ↔ 30 ≤ n ∧ n < 60) ∧
       ((riskLevel n).1 = "High" ↔ 60 ≤ n)) ∧
    (riskLevel 29).1 = "Low" ∧ (riskLevel 30).1 = "Medium" ∧
    (riskLevel 59).1 = "Medium" ∧ (riskLevel 60).1 = "High" := by
  refine ⟨fun _ _ _ _ _ => rfl, fun n => ?_, rfl, rfl, rfl, rfl⟩
  unfold riskLevel
  split_ifs with h1 h2 <;> refine ⟨?_, ?_, ?_⟩ <;> simp <;> omega

/-- C5: the country sub-score outcomes are mutually exclusive with
high-risk precedence: a high-risk match gives exactly +50 with one reason;
otherwise a medium-risk match gives exactly +20 with one reason; otherwise
0 with no reason.  Sender Afghanistan (high-risk) with receiver Pakistan
(medium-risk) scores 50, not 70. -/
theorem c5_country_precedence :
    ∀ sender receiver : String,
      ((sender ∈ HIGH_RISK_COUNTRIES ∨ receiver ∈ HIGH_RISK_COUNTRIES) →
        countryPoints sender receiver = 50 ∧
        (countryReasons sender receiver).length = 1) ∧
      (¬(sender ∈ HIGH_RISK_COUNTRIES ∨ receiver ∈ HIGH_RISK_COUNTRIES) ∧
        (sender ∈ MEDIUM_RISK_COUNTRIES ∨ receiver ∈ MEDIUM_RISK_COUNTRIES) →
        countryPoints sender receiver = 20 ∧
        (countryReasons sender receiver).length = 1) ∧
      (¬(sender ∈ HIGH_RISK_COUNTRIES ∨ receiver ∈ HIGH_RISK_COUNTRIES) ∧
        ¬(sender ∈ MEDIUM_RISK_COUNTRIES ∨ receiver ∈ MEDIUM_RISK_COUNTRIES) →
        countryPoints sender receiver = 0 ∧
        (countryReasons sender receiver).length = 0) ∧
      countryPoints "Afghanistan" "Pakistan" = 50 := by
  intro s r
  refine ⟨fun h => ?_, fun h => ?_, fun h => ?_, by decide⟩
  · unfold countryPoints countryReasons
    simp only [if_pos h]
    simp
  · unfold countryPoints countryReasons
    simp only [if_neg h.1, if_pos h.2]
    simp
  · unfold countryPoints countryReasons
    simp only [if_neg h.1, if_neg h.2]
    simp

/-- C5 witness: the high-over-medium precedence at the concrete corridor
Afghanistan to Pakistan. -/
theorem c5_witness :
    countryPoints "Afghanistan" "Pakistan" = 50 ∧
    (countryReasons "Afghanistan" "Pakistan").length = 1 :=
  (c5_country_precedence "Afghanistan" "Pakistan").1 (by decide)

/-- C6 counterexample: the layering typology is keyed to the fixed 10000
threshold and to the label spelled "Layering / Cross-border structuring",
not to the account-type pair's high threshold or the spec's lowercase
spelling.  A company transaction of 30000 from Iran gets the label although
30000 does not exceed the company high threshold 50000, and an individual
transaction of 15000 from Iran exceeds its pair's high threshold yet the
list never holds the lowercase-spelled label. -/
theorem c6_counterexample :
    ("Layering / Cross-border structuring" ∈
        (scoreCore "Iran" "India" 30000 "" "company").typologies ∧
      ¬((30000 : Rat) > (thresholdPair "company").1)) ∧
    ((15000 : Rat) > (thresholdPair "individual").1 ∧
      "Layering / cross-border structuring" ∉
        (scoreCore "Iran" "India" 15000 "" "individual").typologies) := by
  refine ⟨⟨?_, by decide⟩, ⟨by decide, ?_⟩⟩
  · rw [scoreCore_typologies]; decide
  · rw [scoreCore_typologies]; decide

/-- C6 (amended): the label "Layering / Cross-border structuring" is in
the typology list exactly when the amount strictly exceeds the fixed 10000
threshold and the sender country is in the high-risk set, independent of
the account type (and of score and tier, which the typology derivation
never reads). -/
theorem c6_layering_rule :
    ∀ (sender receiver : String) (amount : Rat) (purpose acct_type : String),
      ("Layering / Cross-border structuring" ∈
          (scoreCore sender receiver amount purpose acct_type).typologies ↔
        amount > 10000 ∧ sender ∈ HIGH_RISK_COUNTRIES) := by
  intro s r a p t
  rw [scoreCore_typologies]
  unfold typologyList
  by_cases h1 : a > 10000 ∧ s ∈ HIGH_RISK_COUNTRIES <;>
    by_cases h2 : a > 5000 ∧ s ≠ r ∧ t = "individual" <;>
    by_cases h3 : strContains p "crypto" = true <;>
    by_cases h4 : strContains p "trade" = true <;>
    simp [h1, h2, h3, h4]

/-- C7: the sentinel label "No clear typology detected" is in the typology
list exactly when none of the four typology predicates matched; it only
ever occurs as the whole singleton list, so it never co-occurs with
another label; the typology list is never empty; and whenever some
predicate matched, the list is exactly the concatenation of the matched
labels in evaluation order. -/
theorem c7_sentinel_exclusive :
    ∀ (sender receiver : String) (amount : Rat) (purpose acct_type : String),
      ("No clear typology detected" ∈
          (scoreCore sender receiver amount purpose acct_type).typologies ↔
        ¬(amount > 10000 ∧ sender ∈ HIGH_RISK_COUNTRIES) ∧
        ¬(amount > 5000 ∧ sender ≠ receiver ∧ acct_type = "individual") ∧
        ¬(strContains purpose "crypto" = true) ∧
        ¬(strContains purpose "trade" = true)) ∧
      ((scoreCore sender receiver amount purpose acct_type).typologies =
          ["No clear typology detected"] ∨
        "No clear typology detected" ∉
          (scoreCore sender receiver amount purpose acct_type).typologies) ∧
      (scoreCore sender receiver amount purpose acct_type).typologies ≠ [] ∧
      ((amount > 10000 ∧ sender ∈ HIGH_RISK_COUNTRIES) ∨
        (amount > 5000 ∧ sender ≠ receiver ∧ acct_type = "individual") ∨
        strContains purpose "crypto" = true ∨
        strContains purpose "trade" = true →
        (scoreCore sender receiver amount purpose acct_type).typologies =
          (if amount > 10000 ∧ sender ∈ HIGH_RISK_COUNTRIES then
            ["Layering / Cross-border structuring"] else []) ++
          (if amount > 5000 ∧ sender ≠ receiver ∧ acct_type = "individual" then
            ["Cross-border retail remittance / funnel account"] else []) ++
          (if strContains purpose "crypto" = true then
            ["Crypto transaction"] else []) ++
          (if strContains purpose "trade" = true then
            ["Trade-based money laundering"] else [])) := by
  intro s r a p t
  rw [scoreCore_typologies]
  unfold typologyList
  by_cases h1 : a > 10000 ∧ s ∈ HIGH_RISK_COUNTRIES <;>
    by_cases h2 : a > 5000 ∧ s ≠ r ∧ t = "individual" <;>
    by_cases h3 : strContains p "crypto" = true <;>
    by_cases h4 : strContains p "trade" = true <;>
    simp [h1, h2, h3, h4]

/-- C8 counterexample: the result the engine returns for the empty
transaction holds no mapping of sub-score categories to points under any
key — its values are only numbers, strings, and the typology string list. -/
theorem c8_counterexample :
    compute_risk_and_typology {} =
      Except.ok (scoreCore "" "" 0 "" "individual") ∧
    ¬ ∃ k m, (k, ResValue.map m) ∈
        resultDict (scoreCore "" "" 0 "" "individual") := by
  refine ⟨rfl, ?_⟩
  rintro ⟨k, m, hm⟩
  simp [resultDict] at hm

/-- C8 (amended): the result record carries exactly the keys score, level,
emoji, typologies, and explanation; it contains no sub-score mapping for
the four rule groups. -/
theorem c8_result_fields :
    ∀ (sender receiver : String) (amount : Rat) (purpose acct_type : String),
      (resultDict (scoreCore sender receiver amount purpose acct_type)).map
          Prod.fst =
        ["score", "level", "emoji", "typologies", "explanation"] ∧
      ¬ ∃ k m, (k, ResValue.map m) ∈
          resultDict (scoreCore sender receiver amount purpose acct_type) := by
  intro s r a p t
  refine ⟨rfl, ?_⟩
  rintro ⟨k, m, hm⟩
  simp [resultDict] at hm

/-- C9: the amount sub-score is monotonically non-decreasing in the amount
for a fixed account type. -/
theorem c9_amount_monotone :
    ∀ (acct_type : String) (a b : Rat), a ≤ b →
      amountPoints acct_type a ≤ amountPoints acct_type b := by
  intro t a b hab
  unfold amountPoints
  split_ifs <;> first | omega | (exfalso; linarith)

/-- C9 witness: monotonicity at the concrete amounts 3 and 7. -/
theorem c9_witness :
    amountPoints "individual" 3 ≤ amountPoints "individual" 7 :=
  c9_amount_monotone "individual" 3 7 (by norm_num)

/-- C10: a present account type that is not, case-insensitively, the
string "individual" gets the company thresholds (high 50000, medium
20000); a present string account type is never rejected, and only an
absent field defaults to "Individual" (lowercased to "individual"). -/
theorem c10_unrecognized_account_type :
    (∀ s : String, pyLower s ≠ "individual" →
       ∀ amount : Rat, amountPoints (pyLower s) amount =
         (if amount > 50000 then 20 else if amount > 20000 then 10 else 0)) ∧
    (∀ (s d : String), getStr (some (Value.str s)) d = Except.ok s) ∧
    getStr none "Individual" = Except.ok "Individual" ∧
    pyLower "Individual" = "individual" := by
  refine ⟨fun s h a => ?_, fun s d => rfl, rfl, rfl⟩
  unfold amountPoints
  rw [if_neg h]

/-- C10 witness: the unrecognized account type "corporate" gets the
company thresholds, so 25000 scores the medium band. -/
theorem c10_witness :
    amountPoints (pyLower "corporate") 25000 = 10 := by
  rw [c10_unrecognized_account_type.1 "corporate" (by decide) 25000]
  norm_num

/-- C3 witness: the cap bound at a concrete transaction. -/
theorem c3_witness :
    (scoreCore "India" "USA" 100 "gift" "individual").score ≤ 100 :=
  (c3_score_is_capped_sum "India" "USA" 100 "gift" "individual").2

/-- C4 witness: the boundary characterization applied at score 45. -/
theorem c4_witness : (riskLevel 45).1 = "Medium" :=
  ((c4_tier_boundaries.2.1 45).2.1).mpr (by omega)

/-- C6 witness: the layering rule applied at a concrete transaction. -/
theorem c6_witness :
    "Layering / Cross-border structuring" ∈
      (scoreCore "Afghanistan" "USA" 15000 "family support"
        "individual").typologies :=
  (c6_layering_rule "Afghanistan" "USA" 15000 "family support"
    "individual").mpr (by decide)

/-- C7 witness: a concrete benign transaction has a non-empty typology
list, and a concrete transaction matching two predicates gets exactly
their labels in evaluation order. -/
theorem c7_witness :
    (scoreCore "India" "India" 3000 "gift" "individual").typologies ≠ [] ∧
    (scoreCore "Afghanistan" "USA" 15000 "gift" "individual").typologies =
      ["Layering / Cross-border structuring",
       "Cross-border retail remittance / funnel account"] := by
  refine ⟨(c7_sentinel_exclusive "India" "India" 3000 "gift"
    "individual").2.2.1, ?_⟩
  rw [(c7_sentinel_exclusive "Afghanistan" "USA" 15000 "gift"
    "individual").2.2.2 (Or.inl (by decide))]
  decide

/-- C8 witness: the result keys at a concrete transaction. -/
theorem c8_witness :
    (resultDict (scoreCore "India" "USA" 100 "gift" "individual")).map
        Prod.fst =
      ["score", "level", "emoji", "typologies", "explanation"] :=
  (c8_result_fields "India" "USA" 100 "gift" "individual").1
